import Mathlib

/-!
Verification development for the cloudwallet gasless meta-transaction relay.

The embedding below translates the relay's core logic into Lean:

* the EIP-712 typed-data schemes used by the on-chain forwarder / repo test
  (`test/GaslessTransactions.test.js`) and by the web SDK
  (`apps/web/.../route.ts`, `GaslessTransactionSDK`);
* the forwarder's `verify` (docs/implementation.md, OpenZeppelin
  `MinimalForwarder.verify` built on `ECDSA.recover`) with the ECDSA
  primitive abstracted as an oracle parameter, but with OpenZeppelin's
  length / s-range / zero-address error handling made explicit (those
  paths revert rather than return false);
* the contract's `verifyPayment` (TokenPaymentForwarder.sol);
* the Lambda relayer `processMetaTransaction` / `handler`
  (gasless/infrastructure/lambda/index.js), with chain interactions
  summarised in an explicit environment record;
* the SQS redelivery / dead-letter discipline configured in the Terraform
  file (`maxReceiveCount = 3`);
* an interleaved two-worker model of the nonce-ordering question: two
  requests of one identity processed concurrently (index.js has no
  per-identity in-flight marker), each stepping through verification,
  execution and payment collection against the shared stored nonce, which
  OpenZeppelin `MinimalForwarder.execute` advances atomically exactly when
  its `verify` re-check passes.

Hashing is modelled symbolically (a digest is the tuple of the domain and
the encoded fields, i.e. an ideal collision-free hash); the JavaScript
floating-point fee pipeline in `calculatePayment` is idealised to exact
rational arithmetic with round-half-up at 6 decimals, which is what
`Number.prototype.toFixed(6)` computes on the magnitudes involved.
-/

namespace CloudWallet

/-- EIP-712 domain data, as passed to `_signTypedData` and as fixed by the
forwarder contract's `EIP712` constructor. Addresses are modelled as `Nat`. -/
structure Eip712Domain where
  name : String
  version : String
  chainId : Nat
  verifyingContract : Nat
  deriving DecidableEq, Repr

/-- One field of an EIP-712 struct type: its name and its solidity type. -/
structure TypedField where
  fieldName : String
  fieldType : String
  deriving DecidableEq, Repr

/-- ForwardRequest type fields used by the on-chain forwarder's `_TYPEHASH`
(docs/implementation.md lines 146-155) and, identically, by the repository
test `test/GaslessTransactions.test.js` when signing. Six fields, `data`
hashed, in this order. -/
def forwardRequestFieldsContract : List TypedField :=
  [⟨"from", "address"⟩, ⟨"to", "address"⟩, ⟨"value", "uint256"⟩,
   ⟨"gas", "uint256"⟩, ⟨"nonce", "uint256"⟩, ⟨"data", "bytes"⟩]

/-- ForwardRequest type fields the web SDK signs over
(apps/web/src/app/api/accounts/[address]/route.ts, `signRequest`): the six
contract fields plus a seventh `payment` field. -/
def forwardRequestFieldsWebSdk : List TypedField :=
  forwardRequestFieldsContract ++ [⟨"payment", "uint256"⟩]

/-- EIP-712 domain the deployed forwarder verifies against and the repo test
signs under (`test/GaslessTransactions.test.js` lines 364-369; the contract
inherits MinimalForwarder's `EIP712("MinimalForwarder", "0.0.1")`). -/
def domainContractTest (chainId verifyingContract : Nat) : Eip712Domain :=
  ⟨"MinimalForwarder", "0.0.1", chainId, verifyingContract⟩

/-- EIP-712 domain the web SDK signs under (route.ts `getDomainData`). -/
def domainWebSdk (chainId verifyingContract : Nat) : Eip712Domain :=
  ⟨"TokenPaymentForwarder", "0.0.1", chainId, verifyingContract⟩

/-- Domain asserted by the specification (spec.md section 6): written from
the spec's words, for comparison with the definitions taken from the code. -/
def domainClaimed (chainId verifyingContract : Nat) : Eip712Domain :=
  ⟨"TokenPaymentForwarder", "0.0.1", chainId, verifyingContract⟩

/-- Field list asserted by the specification (spec.md section 6): exactly
`from, to, value, gas, nonce, data`, written from the spec's words. -/
def forwardRequestFieldsClaimed : List TypedField :=
  [⟨"from", "address"⟩, ⟨"to", "address"⟩, ⟨"value", "uint256"⟩,
   ⟨"gas", "uint256"⟩, ⟨"nonce", "uint256"⟩, ⟨"data", "bytes"⟩]

/-- MinimalForwarder.ForwardRequest. The solidity field `from` is a Lean
keyword and is rendered `fromAddr`; `data` is the opaque call payload as a
byte list. -/
structure ForwardRequest where
  fromAddr : Nat
  toAddr : Nat
  value : Nat
  gas : Nat
  nonce : Nat
  data : List Nat
  deriving DecidableEq, Repr

/-- Typed-data digest, modelled symbolically: `_hashTypedDataV4` binds the
domain separator and the struct hash of the six request fields (with
`keccak256(req.data)` standing for the hashed payload). An ideal hash is
injective, so the digest is the tuple itself. -/
structure Digest where
  domain : Eip712Domain
  encodedFields : Nat × Nat × Nat × Nat × Nat × List Nat
  deriving DecidableEq, Repr

/-- Digest of a forward request under a domain, per the `verify` snippet in
docs/implementation.md lines 146-156: `abi.encode` of the type hash with
the six request fields in order, the payload hashed. -/
def typedDataDigest (dom : Eip712Domain) (req : ForwardRequest) : Digest :=
  ⟨dom, (req.fromAddr, req.toAddr, req.value, req.gas, req.nonce, req.data)⟩

/-- A signature is a raw byte string. -/
abbrev Sig := List Nat

/-- Big-endian byte interpretation, as solidity reads `r`/`s` words. -/
def bytesToNat (bs : List Nat) : Nat :=
  bs.foldl (fun acc b => acc * 256 + b) 0

/-- Upper bound on the `s` value accepted by OpenZeppelin ECDSA
(half the secp256k1 group order). -/
def secp256k1HalfOrder : Nat :=
  0x7FFFFFFFFFFFFFFFFFFFFFFFFFFFFFFF5D576E7357A4501DDFE92F46681B20A0

/-- The ecrecover primitive is abstracted as an oracle from a digest and the
`(r, s, v)` words to an identity, with `0` denoting recovery failure,
exactly the interface of the EVM precompile. -/
abbrev EcRecoverOracle := Digest → Nat × Nat × Nat → Nat

/-- OpenZeppelin `ECDSA.recover` over a 65-byte `r ++ s ++ v` signature.
Wrong length, an out-of-range `s`, or a failed recovery do not yield a
boolean: `recover` reverts with the corresponding error string, which is
modelled by the `Except` error branch. -/
def ecdsaRecover (ec : EcRecoverOracle) (digest : Digest) (sig : Sig) :
    Except String Nat :=
  if sig.length = 65 then
    let r := bytesToNat (sig.take 32)
    let s := bytesToNat ((sig.drop 32).take 32)
    let v := bytesToNat (sig.drop 64)
    if secp256k1HalfOrder < s then
      .error "ECDSA: invalid signature s value"
    else
      let signer := ec digest (r, s, v)
      if signer = 0 then .error "ECDSA: invalid signature"
      else .ok signer
  else .error "ECDSA: invalid signature length"

/-- MinimalForwarder `verify` as shown in docs/implementation.md lines
143-158: recover the signer from the typed-data digest, then return
`_nonces[req.from] == req.nonce && signer == req.from`. The registry read
`_nonces[req.from]` is passed in as `currentNonce`. A revert inside
`recover` propagates. -/
def verify (ec : EcRecoverOracle) (dom : Eip712Domain) (currentNonce : Nat)
    (req : ForwardRequest) (sig : Sig) : Except String Bool :=
  match ecdsaRecover ec (typedDataDigest dom req) sig with
  | .error e => .error e
  | .ok signer => .ok ((currentNonce == req.nonce) && (signer == req.fromAddr))

/-- TokenPaymentForwarder.verifyPayment (TokenPaymentForwarder.sol lines
44-59): reject a payment below `minPayment`, reject when the payer's
allowance for the forwarder does not cover the payment, accept otherwise.
`allowance` is `paymentToken.allowance(req.from, address(this))`. -/
def verifyPayment (minPayment allowance payment : Nat) : Bool :=
  if payment < minPayment then false
  else if allowance < payment then false
  else true

/-- Required USDT payment computed by the Lambda (index.js `calculatePayment`
lines 55-67): `gasLimit * gasPrice` wei, converted at the fixed rate of
3000 USD per ETH, times the hard-coded 1.1 profit margin, emitted at 6
decimals via `toFixed(6)`. In USDT base units that is
`gasLimit * gasPrice * 3300 / 10^12`, rounded half-up, the JavaScript
float pipeline idealised to exact arithmetic. -/
def calculatePayment (gasLimit gasPrice : Nat) : Nat :=
  (2 * (gasLimit * gasPrice * 3300) + 10 ^ 12) / (2 * 10 ^ 12)

/-- The dynamic minimum payment as the specification words it (spec.md
section 4.2): fee price times gas limit times the markup, rounded UP to the
token's smallest unit. Written from the spec, for comparison with
`calculatePayment` above. -/
def requiredPaymentSpecRoundedUp (gasLimit gasPrice : Nat) : Nat :=
  (gasLimit * gasPrice * 3300 + (10 ^ 12 - 1)) / 10 ^ 12

/-- The meta-transaction message body the Lambda parses from SQS
(`JSON.parse(message.body)`): the forward-request fields, the signature,
and the `payment` the user offered (wire format of spec.md section 6).
index.js reads every field except `payment`. -/
structure MetaTx where
  fromAddr : Nat
  toAddr : Nat
  value : Nat
  gas : Nat
  nonce : Nat
  data : List Nat
  signature : Sig
  payment : Nat
  deriving DecidableEq, Repr

/-- Summary of the chain and provider state one processing attempt observes:
the forwarder's stored nonce for the sender, whether the signature recovers
to the sender over the forwarder's digest (the boolean
`forwarderContract.verify` returns on a well-formed signature), the gas
price, the sender's USDT allowance for the relayer, and whether the
execution and payment transactions confirm. -/
structure ChainEnv where
  chainNonce : Nat
  sigOk : Bool
  gasPrice : Nat
  allowance : Nat
  execOk : Bool
  payOk : Bool
  deriving DecidableEq, Repr

/-- Failure cases `processMetaTransaction` can throw. -/
inductive ProcessErr where
  | invalidSignature
  | insufficientAllowance
  | executionFailed
  | paymentFailed
  deriving DecidableEq, Repr

/-- Successful result of `processMetaTransaction`: the USDT amount the
relayer collected (index.js returns it as `usdtAmount`). -/
structure ProcessResult where
  usdtAmount : Nat
  deriving DecidableEq, Repr

/-- On-chain side effects of one processing attempt: whether
`forwarderContract.execute` was submitted, and the USDT amount actually
collected by `transferFrom`, if any. -/
structure ChainEffects where
  executeSubmitted : Bool
  paymentCollected : Option Nat
  deriving DecidableEq, Repr

/-- index.js `processMetaTransaction` (lines 70-123): check
`forwarderContract.verify` (signature and nonce) and throw on failure;
compute the required payment from the request's gas and the current gas
price; check the USDT allowance against that amount and throw on failure;
submit `execute` and await confirmation; collect the required payment by
`transferFrom`. The offered `metaTx.payment` and the configured
`config.minPayment` are never consulted. -/
def processMetaTransaction (env : ChainEnv) (tx : MetaTx) :
    Except ProcessErr ProcessResult × ChainEffects :=
  let valid := env.sigOk && (tx.nonce == env.chainNonce)
  if !valid then (.error .invalidSignature, ⟨false, none⟩)
  else
    let requiredPayment := calculatePayment tx.gas env.gasPrice
    if !(requiredPayment ≤ env.allowance : Bool) then
      (.error .insufficientAllowance, ⟨false, none⟩)
    else if !env.execOk then (.error .executionFailed, ⟨true, none⟩)
    else if !env.payOk then (.error .paymentFailed, ⟨true, none⟩)
    else (.ok ⟨requiredPayment⟩, ⟨true, some requiredPayment⟩)

/-- An SQS record as the handler sees it: parsed body and receipt handle. -/
structure SqsMessage where
  body : MetaTx
  receiptHandle : Nat
  deriving DecidableEq, Repr

/-- Receipt handles the Lambda handler deletes from the queue (index.js
lines 126-150): the loop deletes a message exactly when its processing
returned without throwing; on any thrown error the message is left to
return to the queue after the visibility timeout. -/
def handlerDeleted (env : ChainEnv) : List SqsMessage → List Nat
  | [] => []
  | m :: rest =>
    match processMetaTransaction env m.body with
    | (.ok _, _) => m.receiptHandle :: handlerDeleted env rest
    | (.error _, _) => handlerDeleted env rest

/-- Queue redelivery bound configured in the Terraform file
(`aws_sqs_queue.meta_tx_queue`, `redrive_policy.maxReceiveCount = 3`). -/
def maxReceiveCount : Nat := 3

/-- Fate of a message after one processing attempt. -/
inductive MsgFate where
  | settledDeleted
  | redelivered
  | deadLettered
  deriving DecidableEq, Repr

/-- SQS semantics of the configured redrive policy: a deleted message is
gone; an undeleted message whose receive count is still below
`maxReceiveCount` becomes visible again and is redelivered; once the
receive count reaches the bound it is moved to the dead-letter queue.
`receiveCount` counts the delivery that just happened. -/
def afterAttempt (deleted : Bool) (receiveCount : Nat) : MsgFate :=
  if deleted then .settledDeleted
  else if receiveCount < maxReceiveCount then .redelivered
  else .deadLettered

/-- Number of times a message that fails on every attempt is delivered
before leaving the main queue, simulated delivery by delivery (`fuel`
bounds the recursion; any fuel at least `maxReceiveCount` is enough). -/
def deliveriesWhenAlwaysFailing : Nat → Nat → Nat
  | 0, count => count
  | fuel + 1, count =>
    match afterAttempt false (count + 1) with
    | .redelivered => deliveriesWhenAlwaysFailing fuel (count + 1)
    | _ => count + 1

/-- Lifecycle phases of one request in the orchestrator, following the
spec's state machine (section 4.3) within one delivery attempt: Verifying
on dequeue; Executing once the pre-execution checks pass and the execute
transaction is submitted; CollectingPayment after on-chain confirmation;
then Settled or PaymentFailed. Rejected covers any failed pre-execution
check (the Lambda throws before submitting execution). -/
inductive Phase where
  | verifying
  | executing
  | collectingPayment
  | settled
  | paymentFailed
  | rejected
  deriving DecidableEq, Repr

/-- Terminal phases per the spec's state machine: Rejected, Settled and
PaymentFailed. CollectingPayment in particular is not terminal. -/
def isTerminal : Phase → Bool
  | .settled => true
  | .paymentFailed => true
  | .rejected => true
  | _ => false

/-- One in-flight request as a worker processes it: whether its signature
recovers to the requester over the forwarder's digest, whether the
allowance check passes, the nonce the request quotes, and its phase. -/
structure Worker where
  sigOk : Bool
  allowOk : Bool
  reqNonce : Nat
  phase : Phase
  deriving DecidableEq, Repr

/-- Two concurrently processed requests of one identity together with the
forwarder's stored nonce for that identity. index.js keeps no per-identity
in-flight marker and nothing in the repository assigns SQS message group
ids, so two Lambda invocations can process the two requests at the same
time; only the individual chain transactions are atomic, and the stored
nonce is the one piece of state they share. -/
structure Sys where
  chainNonce : Nat
  a : Worker
  b : Worker
  deriving DecidableEq, Repr

/-- Which of the two workers takes the next step. -/
inductive WId where
  | wa
  | wb
  deriving DecidableEq, Repr

/-- The three await points of index.js `processMetaTransaction` at which
control can interleave with the other worker: the `forwarderContract.verify`
view call plus allowance check, the `execute` submission/confirmation, and
the payment `transferFrom`. -/
inductive Op where
  | doVerify
  | doExec
  | doPay
  deriving DecidableEq, Repr

/-- One worker step against the shared chain nonce, mirroring index.js and
the on-chain forwarder. `doVerify`: the verify view call checks the
signature and `reqNonce == chainNonce`, then the allowance check runs; any
failure throws, ending the attempt as Rejected, otherwise the worker
proceeds to submit execution (Executing). `doExec`: MinimalForwarder's
`execute` re-requires `verify` atomically and advances the stored nonce by
exactly one on success, after which the worker collects payment; a failed
re-check reverts the submission and the attempt ends. `doPay`: the
`transferFrom` settles or fails. Steps whose phase does not match are
no-ops (that worker is not at that await point). -/
def stepWorker (chainNonce : Nat) (payOk : Bool) (w : Worker) :
    Op → Worker × Nat
  | .doVerify =>
    if w.phase = .verifying then
      if w.sigOk && (w.reqNonce == chainNonce) then
        if w.allowOk then ({ w with phase := .executing }, chainNonce)
        else ({ w with phase := .rejected }, chainNonce)
      else ({ w with phase := .rejected }, chainNonce)
    else (w, chainNonce)
  | .doExec =>
    if w.phase = .executing then
      if w.sigOk && (w.reqNonce == chainNonce) then
        ({ w with phase := .collectingPayment }, chainNonce + 1)
      else ({ w with phase := .rejected }, chainNonce)
    else (w, chainNonce)
  | .doPay =>
    if w.phase = .collectingPayment then
      if payOk then ({ w with phase := .settled }, chainNonce)
      else ({ w with phase := .paymentFailed }, chainNonce)
    else (w, chainNonce)

/-- One system step: the scheduled worker performs the scheduled operation
against the shared chain nonce. -/
def stepSys (payOk : Bool) (s : Sys) : WId × Op → Sys
  | (.wa, op) =>
    let r := stepWorker s.chainNonce payOk s.a op
    { s with a := r.1, chainNonce := r.2 }
  | (.wb, op) =>
    let r := stepWorker s.chainNonce payOk s.b op
    { s with b := r.1, chainNonce := r.2 }

/-- Run an arbitrary interleaving (any schedule of worker steps). -/
def runSys (payOk : Bool) (s : Sys) : List (WId × Op) → Sys
  | [] => s
  | act :: rest => runSys payOk (stepSys payOk s act) rest

/-- Inductive invariant of the two-request scenario (worker `a` quotes nonce
`n`, worker `b` quotes `n + 1`, both validly signed): the stored nonce
counts completed executions, `b` cannot pass verification before `a`'s
execution has advanced the nonce, and each worker's phase is confined to
the stage the nonce admits. -/
def OrderingInv (n : Nat) (s : Sys) : Prop :=
  s.a.sigOk = true ∧ s.b.sigOk = true ∧
  s.a.reqNonce = n ∧ s.b.reqNonce = n + 1 ∧
  ((s.chainNonce = n
      ∧ (s.a.phase = .verifying ∨ s.a.phase = .executing ∨ s.a.phase = .rejected)
      ∧ (s.b.phase = .verifying ∨ s.b.phase = .rejected))
   ∨ (s.chainNonce = n + 1
      ∧ (s.a.phase = .collectingPayment ∨ s.a.phase = .settled ∨
          s.a.phase = .paymentFailed)
      ∧ (s.b.phase = .verifying ∨ s.b.phase = .rejected ∨
          s.b.phase = .executing))
   ∨ (s.chainNonce = n + 2
      ∧ (s.a.phase = .collectingPayment ∨ s.a.phase = .settled ∨
          s.a.phase = .paymentFailed)
      ∧ (s.b.phase = .collectingPayment ∨ s.b.phase = .settled ∨
          s.b.phase = .paymentFailed)))

/-- C1: `verify` accepts exactly when the identity recovered from the
signature over the domain-bound digest is `req.fromAddr` and the request's
nonce equals the registry's current nonce; consequently, once the nonce no
longer matches, `verify` never accepts, and answers `false` for every
signature that recovers at all, regardless of which identity it recovers. -/
theorem verify_accepts_iff_signer_and_nonce (ec : EcRecoverOracle)
    (dom : Eip712Domain) (currentNonce : Nat) (req : ForwardRequest)
    (sig : Sig) (s : Nat) :
    (verify ec dom currentNonce req sig = .ok true ↔
      ecdsaRecover ec (typedDataDigest dom req) sig = .ok req.fromAddr ∧
        req.nonce = currentNonce)
    ∧ (req.nonce ≠ currentNonce → verify ec dom currentNonce req sig ≠ .ok true)
    ∧ (req.nonce ≠ currentNonce →
        ecdsaRecover ec (typedDataDigest dom req) sig = .ok s →
        verify ec dom currentNonce req sig = .ok false) := by
  have main : verify ec dom currentNonce req sig = .ok true ↔
      ecdsaRecover ec (typedDataDigest dom req) sig = .ok req.fromAddr ∧
        req.nonce = currentNonce := by
    unfold verify
    cases h : ecdsaRecover ec (typedDataDigest dom req) sig with
    | error e => simp
    | ok signer =>
      simp only [Except.ok.injEq, Bool.and_eq_true, beq_iff_eq]
      omega
  refine ⟨main, fun hne hacc => hne (main.mp hacc).2, fun hne hrec => ?_⟩
  unfold verify
  rw [hrec]
  have : (currentNonce == req.nonce) = false := by
    simp [Ne.symm hne]
  simp [this]

/-- Witness for C1 at a concrete input: with an oracle that recovers
identity 5, a request from identity 5 quoting nonce 7 against a registry
nonce of 3 is answered `false` even though the signature is valid. -/
theorem verify_accepts_iff_signer_and_nonce_witness :
    verify (fun _ _ => 5) (domainContractTest 31337 77) 3
      ⟨5, 9, 0, 300000, 7, []⟩ (List.replicate 65 0) = .ok false :=
  (verify_accepts_iff_signer_and_nonce (fun _ _ => 5)
      (domainContractTest 31337 77) 3 ⟨5, 9, 0, 300000, 7, []⟩
      (List.replicate 65 0) 5).2.2 (by decide) rfl

/-- C2: the payment policy accepts exactly when the offered payment reaches
the `minPayment` floor and the authorized allowance covers the payment, and
it rejects every payment below the floor. -/
theorem verifyPayment_ok_iff (minPayment allowance payment : Nat) :
    (verifyPayment minPayment allowance payment = true ↔
      minPayment ≤ payment ∧ payment ≤ allowance)
    ∧ (payment < minPayment →
        verifyPayment minPayment allowance payment = false) := by
  refine ⟨?_, fun h => by simp [verifyPayment, h]⟩
  by_cases h1 : payment < minPayment
  · simp [verifyPayment, h1]
  · by_cases h2 : allowance < payment
    · simp [verifyPayment, h1, h2]
    · simp [verifyPayment, h1, h2]
      omega

/-- Witness for C2 at concrete inputs: with a floor of 1 USDT (1000000 base
units) and ample allowance, the policy rejects a payment one unit below the
floor and a zero payment. -/
theorem verifyPayment_ok_iff_witness :
    verifyPayment 1000000 1000000000 999999 = false
    ∧ verifyPayment 1000000 1000000000 0 = false :=
  ⟨(verifyPayment_ok_iff 1000000 1000000000 999999).2 (by decide),
   (verifyPayment_ok_iff 1000000 1000000000 0).2 (by decide)⟩

/-- C9 counterexample: at gas limit 1 and gas price 1 gwei the exact fee is
3.3 USDT base units; the Lambda's `calculatePayment` (via `toFixed(6)`)
rounds to the nearest unit and returns 3, while the specification's
rounded-up value is 4, so the computed payment is not rounded up. -/
theorem dynamic_payment_rounding_cx :
    calculatePayment 1 1000000000 = 3
    ∧ requiredPaymentSpecRoundedUp 1 1000000000 = 4
    ∧ calculatePayment 1 1000000000 ≠ requiredPaymentSpecRoundedUp 1 1000000000 := by
  refine ⟨by decide, by decide, by decide⟩

/-- C9 amended: `calculatePayment` equals the gas cost `gasLimit * gasPrice`
(in wei) converted at the fixed 3000 USD/ETH rate with the hard-coded 1.1
markup, rounded to the NEAREST 6-decimal base unit (ties up), i.e. it is
the unique `v` with `v - 1/2 < gasLimit*gasPrice*3300/10^12 ≤ v + 1/2`,
not the rounded-up value. -/
theorem dynamic_payment_round_half_up (gasLimit gasPrice : Nat) :
    calculatePayment gasLimit gasPrice * (2 * 10 ^ 12) ≤
        2 * (gasLimit * gasPrice * 3300) + 10 ^ 12
    ∧ 2 * (gasLimit * gasPrice * 3300) + 10 ^ 12 <
        (calculatePayment gasLimit gasPrice + 1) * (2 * 10 ^ 12) := by
  unfold calculatePayment
  generalize gasLimit * gasPrice * 3300 = a
  have hp : (10 : Nat) ^ 12 = 1000000000000 := by norm_num
  rw [hp]
  have h1 := Nat.div_add_mod (2 * a + 1000000000000) 2000000000000
  have h2 : (2 * a + 1000000000000) % 2000000000000 < 2000000000000 :=
    Nat.mod_lt _ (by norm_num)
  omega

/-- C10 counterexample: an empty (wrong-length) signature makes `verify`
revert with the OpenZeppelin length error instead of returning `false`. -/
theorem malformed_signature_reverts_cx :
    verify (fun _ _ => 5) (domainContractTest 31337 77) 0
        ⟨5, 9, 0, 300000, 0, []⟩ [] = .error "ECDSA: invalid signature length"
    ∧ verify (fun _ _ => 5) (domainContractTest 31337 77) 0
        ⟨5, 9, 0, 300000, 0, []⟩ [] ≠ .ok false := by
  refine ⟨rfl, fun h => ?_⟩
  rw [show verify (fun _ _ => 5) (domainContractTest 31337 77) 0
      ⟨5, 9, 0, 300000, 0, []⟩ [] = .error "ECDSA: invalid signature length"
    from rfl] at h
  exact Except.noConfusion h

/-- C10 amended: `verify` answers `false` (no exception) for a well-formed
65-byte signature that recovers to an identity other than the requester,
but a signature of the wrong length makes it raise (revert) with the
ECDSA length error rather than return `false`. -/
theorem verify_error_behavior (ec : EcRecoverOracle) (dom : Eip712Domain)
    (currentNonce : Nat) (req : ForwardRequest) (sig : Sig) (s : Nat) :
    (sig.length ≠ 65 →
      verify ec dom currentNonce req sig = .error "ECDSA: invalid signature length")
    ∧ (ecdsaRecover ec (typedDataDigest dom req) sig = .ok s →
        s ≠ req.fromAddr → verify ec dom currentNonce req sig = .ok false) := by
  constructor
  · intro h
    simp [verify, ecdsaRecover, h]
  · intro hrec hne
    unfold verify
    rw [hrec]
    have : (s == req.fromAddr) = false := by simp [hne]
    simp [this]

/-- Witness for C10 at concrete inputs: a one-byte signature reverts with
the length error, and a 65-byte signature recovering identity 4 for a
request from identity 5 yields `false`. -/
theorem verify_error_behavior_witness :
    verify (fun _ _ => 4) (domainContractTest 31337 77) 0
        ⟨5, 9, 0, 300000, 0, []⟩ [0] = .error "ECDSA: invalid signature length"
    ∧ verify (fun _ _ => 4) (domainContractTest 31337 77) 0
        ⟨5, 9, 0, 300000, 0, []⟩ (List.replicate 65 0) = .ok false :=
  ⟨(verify_error_behavior (fun _ _ => 4) (domainContractTest 31337 77) 0
      ⟨5, 9, 0, 300000, 0, []⟩ [0] 4).1 (by decide),
   (verify_error_behavior (fun _ _ => 4) (domainContractTest 31337 77) 0
      ⟨5, 9, 0, 300000, 0, []⟩ (List.replicate 65 0) 4).2 rfl (by decide)⟩

/-- Characterization of the success path of `processMetaTransaction`: when
verification, allowance, execution and payment all go through, the result
carries exactly the computed required payment. -/
lemma processMetaTransaction_success (env : ChainEnv) (tx : MetaTx)
    (hv : (env.sigOk && (tx.nonce == env.chainNonce)) = true)
    (ha : calculatePayment tx.gas env.gasPrice ≤ env.allowance)
    (he : env.execOk = true) (hp : env.payOk = true) :
    processMetaTransaction env tx =
      (.ok ⟨calculatePayment tx.gas env.gasPrice⟩,
        ⟨true, some (calculatePayment tx.gas env.gasPrice)⟩) := by
  simp [processMetaTransaction, hv, ha, he, hp]

/-- C5: the USDT amount the Lambda collects equals `calculatePayment` of the
request's gas limit and the current gas price, and the whole processing
outcome is invariant under the `payment` the user offered: index.js never
reads `metaTx.payment` and never compares it to any floor. -/
theorem collected_equals_required_payment (env : ChainEnv) (tx : MetaTx)
    (p₁ p₂ : Nat) (r : ProcessResult) (eff : ChainEffects) :
    processMetaTransaction env { tx with payment := p₁ } =
        processMetaTransaction env { tx with payment := p₂ }
    ∧ (processMetaTransaction env tx = (.ok r, eff) →
        r.usdtAmount = calculatePayment tx.gas env.gasPrice ∧
          eff.paymentCollected = some (calculatePayment tx.gas env.gasPrice)) := by
  constructor
  · simp [processMetaTransaction]
  · intro h
    by_cases hv : (env.sigOk && (tx.nonce == env.chainNonce)) = true
    · by_cases ha : calculatePayment tx.gas env.gasPrice ≤ env.allowance
      · by_cases he : env.execOk = true
        · by_cases hp : env.payOk = true
          · rw [processMetaTransaction_success env tx hv ha he hp] at h
            injection h with h1 h2
            injection h1 with h1
            exact ⟨by rw [← h1], by rw [← h2]⟩
          · rw [Bool.not_eq_true] at hp
            simp [processMetaTransaction, hv, ha, he, hp] at h
        · rw [Bool.not_eq_true] at he
          simp [processMetaTransaction, hv, ha, he] at h
      · simp [processMetaTransaction, hv, ha] at h
    · rw [Bool.not_eq_true] at hv
      simp [processMetaTransaction, hv] at h

/-- Witness for C5 at a concrete input: on the success path with gas limit
300000 and gas price 1 gwei the collected amount is 990000 base units,
which is exactly `calculatePayment 300000 1000000000`. -/
theorem collected_equals_required_payment_witness :
    (ProcessResult.mk 990000).usdtAmount = calculatePayment 300000 1000000000
    ∧ (ChainEffects.mk true (some 990000)).paymentCollected =
        some (calculatePayment 300000 1000000000) :=
  (collected_equals_required_payment ⟨0, true, 1000000000, 1000000000, true, true⟩
      ⟨5, 9, 0, 300000, 0, [], List.replicate 65 0, 1000000⟩ 0 0
      ⟨990000⟩ ⟨true, some 990000⟩).2 rfl

/-- C3 counterexample: a message whose signature verification fails is NOT
deleted by the handler (index.js only deletes after successful processing);
it stays in the queue and is redelivered after the visibility timeout, so a
rejected request is retried rather than acknowledged and removed. -/
theorem rejected_message_not_deleted_cx :
    processMetaTransaction ⟨0, false, 1000000000, 1000000000, true, true⟩
        ⟨5, 9, 0, 300000, 0, [], List.replicate 65 0, 1000000⟩ =
      (.error .invalidSignature, ⟨false, none⟩)
    ∧ handlerDeleted ⟨0, false, 1000000000, 1000000000, true, true⟩
        [⟨⟨5, 9, 0, 300000, 0, [], List.replicate 65 0, 1000000⟩, 42⟩] = []
    ∧ afterAttempt false 1 = .redelivered :=
  ⟨rfl, rfl, rfl⟩

/-- C3 amended: the handler deletes exactly the messages whose processing
succeeded end to end (reached the settled outcome); every failing message,
including those rejected for signature, nonce, or allowance reasons, is
left in the queue for redelivery and eventual dead-lettering. -/
theorem handler_deletes_only_settled (env : ChainEnv) (msgs : List SqsMessage) :
    handlerDeleted env msgs =
      (msgs.filter fun m => (processMetaTransaction env m.body).1.isOk).map
        (fun m => m.receiptHandle) := by
  induction msgs with
  | nil => rfl
  | cons m rest ih =>
    cases h : processMetaTransaction env m.body with
    | mk res eff =>
      cases res with
      | ok r =>
        simp [handlerDeleted, h, List.filter_cons, Except.isOk, Except.toBool, ih]
      | error e =>
        simp [handlerDeleted, h, List.filter_cons, Except.isOk, Except.toBool, ih]

/-- C4 counterexample: when execution confirms but the fee transfer fails,
the handler throws, does not delete the message, and the queue redelivers
it after the visibility timeout — the request IS automatically retried. -/
theorem paymentFailed_message_redelivered_cx :
    processMetaTransaction ⟨0, true, 1000000000, 1000000000, true, false⟩
        ⟨5, 9, 0, 300000, 0, [], List.replicate 65 0, 1000000⟩ =
      (.error .paymentFailed, ⟨true, none⟩)
    ∧ handlerDeleted ⟨0, true, 1000000000, 1000000000, true, false⟩
        [⟨⟨5, 9, 0, 300000, 0, [], List.replicate 65 0, 1000000⟩, 42⟩] = []
    ∧ afterAttempt false 1 = .redelivered :=
  ⟨rfl, rfl, rfl⟩

/-- C4 amended: after a payment-collection failure the message is left in
the queue and automatically redelivered up to `maxReceiveCount` total
receives before moving to the dead-letter queue; on a redelivery the
forwarder's nonce has advanced, so verification fails and execution is not
re-submitted (the fee stays uncollected). -/
theorem paymentFailed_redelivery_no_reexecution (env : ChainEnv) (tx : MetaTx)
    (hv : env.sigOk = true) (hn : tx.nonce = env.chainNonce)
    (ha : calculatePayment tx.gas env.gasPrice ≤ env.allowance)
    (hexec : env.execOk = true) (hpay : env.payOk = false) :
    processMetaTransaction env tx = (.error .paymentFailed, ⟨true, none⟩)
    ∧ handlerDeleted env [⟨tx, 0⟩] = []
    ∧ afterAttempt false 1 = .redelivered
    ∧ afterAttempt false 2 = .redelivered
    ∧ afterAttempt false maxReceiveCount = .deadLettered
    ∧ (processMetaTransaction { env with chainNonce := env.chainNonce + 1 }
        tx).2.executeSubmitted = false := by
  have hmain : processMetaTransaction env tx = (.error .paymentFailed, ⟨true, none⟩) := by
    simp [processMetaTransaction, hv, hn, ha, hexec, hpay]
  refine ⟨hmain, ?_, rfl, rfl, rfl, ?_⟩
  · simp [handlerDeleted, hmain]
  · have hne : (tx.nonce == env.chainNonce + 1) = false := by
      simp [hn]
    simp [processMetaTransaction, hne]

/-- Witness for C4 at a concrete input: the payment-failure path at gas
limit 300000, gas price 1 gwei, ample allowance. -/
theorem paymentFailed_redelivery_no_reexecution_witness :
    processMetaTransaction ⟨0, true, 1000000000, 1000000000, true, false⟩
        ⟨5, 9, 0, 300000, 0, [], List.replicate 65 0, 1000000⟩ =
      (.error .paymentFailed, ⟨true, none⟩)
    ∧ handlerDeleted ⟨0, true, 1000000000, 1000000000, true, false⟩
        [⟨⟨5, 9, 0, 300000, 0, [], List.replicate 65 0, 1000000⟩, 0⟩] = []
    ∧ afterAttempt false 1 = .redelivered
    ∧ afterAttempt false 2 = .redelivered
    ∧ afterAttempt false maxReceiveCount = .deadLettered
    ∧ (processMetaTransaction
        { ChainEnv.mk 0 true 1000000000 1000000000 true false with chainNonce := 0 + 1 }
        ⟨5, 9, 0, 300000, 0, [], List.replicate 65 0, 1000000⟩).2.executeSubmitted = false :=
  paymentFailed_redelivery_no_reexecution
    ⟨0, true, 1000000000, 1000000000, true, false⟩
    ⟨5, 9, 0, 300000, 0, [], List.replicate 65 0, 1000000⟩
    rfl rfl (by decide) rfl rfl

/-- C6 counterexample: the repository's own signing test uses the domain
name "MinimalForwarder", not the claimed "TokenPaymentForwarder", and the
web SDK signs over seven fields (an extra `payment`) under yet another
domain — so the system's signers do not all use the claimed scheme. -/
theorem typed_data_scheme_mismatch_cx :
    (domainContractTest 31337 77).name ≠ (domainClaimed 31337 77).name
    ∧ forwardRequestFieldsWebSdk ≠ forwardRequestFieldsClaimed
    ∧ domainWebSdk 31337 77 ≠ domainContractTest 31337 77 := by
  refine ⟨by decide, by decide, by decide⟩

/-- C6 amended: the forwarder contract and the repo test agree on the six
fields from, to, value, gas, nonce, data (hashed) in that order under the
domain name "MinimalForwarder", version "0.0.1"; the web SDK instead signs
the six fields plus a seventh `payment` field under the domain name
"TokenPaymentForwarder", so its digests can never equal the contract's and
its signatures are incompatible with the deployed verifier. -/
theorem typed_data_scheme_per_component (chainId vc : Nat) (req : ForwardRequest) :
    forwardRequestFieldsContract = forwardRequestFieldsClaimed
    ∧ forwardRequestFieldsWebSdk =
        forwardRequestFieldsContract ++ [⟨"payment", "uint256"⟩]
    ∧ (domainContractTest chainId vc).name = "MinimalForwarder"
    ∧ (domainContractTest chainId vc).version = "0.0.1"
    ∧ (domainWebSdk chainId vc).name ≠ (domainContractTest chainId vc).name
    ∧ typedDataDigest (domainWebSdk chainId vc) req ≠
        typedDataDigest (domainContractTest chainId vc) req := by
  refine ⟨rfl, rfl, rfl, rfl, fun h => ?_, fun h => ?_⟩
  · simp [domainWebSdk, domainContractTest] at h
  · have hname := congrArg (fun d => d.domain.name) h
    simp [typedDataDigest, domainWebSdk, domainContractTest] at hname

set_option maxHeartbeats 1600000 in
/-- The ordering invariant is preserved by every step of every schedule. -/
lemma orderingInv_step (n : Nat) (payOk : Bool) (s : Sys) (act : WId × Op)
    (h : OrderingInv n s) : OrderingInv n (stepSys payOk s act) := by
  obtain ⟨hsa, hsb, hra, hrb, hcase⟩ := h
  obtain ⟨cn, ⟨asig, aal, arn, aph⟩, ⟨bsig, bal, brn, bph⟩⟩ := s
  obtain ⟨wid, op⟩ := act
  cases wid <;> cases op <;>
    rcases hcase with ⟨hc, ha1 | ha1 | ha1, hb1 | hb1⟩ |
      ⟨hc, ha1 | ha1 | ha1, hb1 | hb1 | hb1⟩ |
      ⟨hc, ha1 | ha1 | ha1, hb1 | hb1 | hb1⟩ <;>
    subst_vars <;>
    simp_all [OrderingInv, stepSys, stepWorker] <;>
    (try (split <;> simp_all))

/-- The ordering invariant holds after running any schedule. -/
lemma orderingInv_run (n : Nat) (payOk : Bool) (acts : List (WId × Op))
    (s : Sys) (h : OrderingInv n s) : OrderingInv n (runSys payOk s acts) := by
  induction acts generalizing s with
  | nil => exact h
  | cons act rest ih => exact ih (stepSys payOk s act) (orderingInv_step n payOk s act h)

/-- C7 counterexample: with requests quoting nonces 5 and 6 for one
identity, the schedule in which worker `a` verifies and executes and then
worker `b` verifies puts `b` (nonce n + 1) in Executing while `a` (nonce n)
is still in CollectingPayment, which is not a terminal state — index.js has
no per-identity in-flight marker to prevent this interleaving. -/
theorem nonce_ordering_window_cx :
    (runSys true ⟨5, ⟨true, true, 5, .verifying⟩, ⟨true, true, 6, .verifying⟩⟩
        [(.wa, .doVerify), (.wa, .doExec), (.wb, .doVerify)]).b.phase = .executing
    ∧ (runSys true ⟨5, ⟨true, true, 5, .verifying⟩, ⟨true, true, 6, .verifying⟩⟩
        [(.wa, .doVerify), (.wa, .doExec), (.wb, .doVerify)]).a.phase = .collectingPayment
    ∧ isTerminal (runSys true ⟨5, ⟨true, true, 5, .verifying⟩, ⟨true, true, 6, .verifying⟩⟩
        [(.wa, .doVerify), (.wa, .doExec), (.wb, .doVerify)]).a.phase = false :=
  ⟨rfl, rfl, rfl⟩

/-- C7 amended: the only ordering gate in the code is the forwarder's nonce
check, and it guarantees exactly this much: in every interleaving, whenever
the request quoting nonce `n + 1` is in Executing, the request quoting
nonce `n` has already completed its on-chain execution (it is in
CollectingPayment, Settled or PaymentFailed) — but not necessarily reached
a terminal state, as the counterexample's CollectingPayment window shows. -/
theorem nonce_ordering_execution_gate (payOk : Bool) (n : Nat)
    (acts : List (WId × Op))
    (hb : (runSys payOk ⟨n, ⟨true, true, n, .verifying⟩,
        ⟨true, true, n + 1, .verifying⟩⟩ acts).b.phase = .executing) :
    (runSys payOk ⟨n, ⟨true, true, n, .verifying⟩,
        ⟨true, true, n + 1, .verifying⟩⟩ acts).a.phase = .collectingPayment
    ∨ (runSys payOk ⟨n, ⟨true, true, n, .verifying⟩,
        ⟨true, true, n + 1, .verifying⟩⟩ acts).a.phase = .settled
    ∨ (runSys payOk ⟨n, ⟨true, true, n, .verifying⟩,
        ⟨true, true, n + 1, .verifying⟩⟩ acts).a.phase = .paymentFailed := by
  have hinv := orderingInv_run n payOk acts
    ⟨n, ⟨true, true, n, .verifying⟩, ⟨true, true, n + 1, .verifying⟩⟩
    ⟨rfl, rfl, rfl, rfl, Or.inl ⟨rfl, Or.inl rfl, Or.inl rfl⟩⟩
  obtain ⟨-, -, -, -, hcase⟩ := hinv
  rcases hcase with ⟨hc, hA, hB⟩ | ⟨hc, hA, hB⟩ | ⟨hc, hA, hB⟩
  · rcases hB with hB | hB <;> simp_all
  · exact hA
  · rcases hB with hB | hB | hB <;> simp_all

/-- Witness for C7's amended theorem at the counterexample schedule: there
`b` is in Executing, and the theorem concludes that `a` has completed
execution (indeed it is in CollectingPayment). -/
theorem nonce_ordering_execution_gate_witness :
    (runSys true ⟨5, ⟨true, true, 5, .verifying⟩,
        ⟨true, true, 5 + 1, .verifying⟩⟩
        [(.wa, .doVerify), (.wa, .doExec), (.wb, .doVerify)]).a.phase = .collectingPayment
    ∨ (runSys true ⟨5, ⟨true, true, 5, .verifying⟩,
        ⟨true, true, 5 + 1, .verifying⟩⟩
        [(.wa, .doVerify), (.wa, .doExec), (.wb, .doVerify)]).a.phase = .settled
    ∨ (runSys true ⟨5, ⟨true, true, 5, .verifying⟩,
        ⟨true, true, 5 + 1, .verifying⟩⟩
        [(.wa, .doVerify), (.wa, .doExec), (.wb, .doVerify)]).a.phase = .paymentFailed :=
  nonce_ordering_execution_gate true 5
    [(.wa, .doVerify), (.wa, .doExec), (.wb, .doVerify)] rfl

/-- C8 counterexample: with the configured `maxReceiveCount = 3`, a message
that fails on every attempt is delivered exactly 3 times before moving to
the dead-letter queue — not the claimed `N + 1 = 4` times. -/
theorem retry_attempts_cx :
    deliveriesWhenAlwaysFailing 10 0 = maxReceiveCount
    ∧ deliveriesWhenAlwaysFailing 10 0 ≠ maxReceiveCount + 1 := by
  refine ⟨by decide, by decide⟩

/-- C8 amended: a request that fails every attempt is attempted exactly
`maxReceiveCount` (= 3, one initial delivery plus two redeliveries) times:
attempts 1 and 2 are redelivered, attempt 3 moves the message to the
dead-letter queue, and it is never silently dropped. -/
theorem retry_attempts_exact :
    deliveriesWhenAlwaysFailing 10 0 = 3
    ∧ afterAttempt false 1 = .redelivered
    ∧ afterAttempt false 2 = .redelivered
    ∧ afterAttempt false 3 = .deadLettered := by
  refine ⟨by decide, rfl, rfl, rfl⟩

end CloudWallet
